import Mathlib

/-!
Verification of the HydroHomies hydration tracker core against its
specification.  The definitions below are shallow embeddings of the
TypeScript source:

* `app/utils/waterGoalCalculator.ts` (daily water goal),
* `app/utils/petEvolution.ts` (pet progression),
* `app/services/ml/waterLevelClassifier.ts` (estimators),
* the two `ScanBottleScreen` variants (verification protocol),
* the leaderboard ranking pass of `LeaderboardScreen`.

JavaScript numbers are modelled as exact rationals; `Math.round` is
`jsRound` (round half toward positive infinity, as in JS), `Math.floor`
is the integer floor, and `Math.pow` is passed in as an opaque function
argument `powf` since it is an external numeric primitive.  Fallible or
effectful steps are modelled with `Except` and explicit outcome
parameters.
-/

/-- JS `Math.round`: round half away toward positive infinity. -/
def jsRound (x : ℚ) : ℤ := ⌊x + 1 / 2⌋

/-- The `sex` field of `UserStats` (strings in the source; the goal
formula only distinguishes the value "male"). -/
inductive Sex where
  | male
  | female
  | other
deriving DecidableEq

/-- Activity level enum from `waterGoalCalculator.ts`. -/
inductive ActivityLevel where
  | low
  | moderate
  | high
  | very_high
deriving DecidableEq

/-- `UserStats` from `app/utils/waterGoalCalculator.ts`. -/
structure UserStats where
  height : ℚ
  weight : ℚ
  age : ℚ
  sex : Sex
  activityLevel : ActivityLevel

/-- The `activityMultipliers` table inside `calculateDailyWaterGoal`. -/
def activityMultipliers : ActivityLevel → ℚ
  | .low => 1.2
  | .moderate => 1.55
  | .high => 1.725
  | .very_high => 1.9

/-- `calculateDailyWaterGoal` from `app/utils/waterGoalCalculator.ts`.
`powf` stands for `Math.pow`, an external numeric primitive. -/
def calculateDailyWaterGoal (powf : ℚ → ℚ → ℚ) (stats : UserStats) : ℤ :=
  let bodySurfaceArea := 0.007184 * powf stats.weight 0.425 * powf stats.height 0.725
  let basalMetabolicRate := 10 * stats.weight + 6.25 * stats.height - 5 * stats.age +
    (match stats.sex with | .male => 5 | _ => -161)
  let totalDailyEnergyExpenditure :=
    basalMetabolicRate * activityMultipliers stats.activityLevel
  let urine : ℚ := 1500
  let faeces : ℚ := 150
  let skinEvap := 400 * bodySurfaceArea
  let respiratory := totalDailyEnergyExpenditure * 0.13
  let sweat := if activityMultipliers stats.activityLevel > 1.2
    then totalDailyEnergyExpenditure * 0.1 else 100
  let metabolicGain := totalDailyEnergyExpenditure * 0.13
  let totalLoss := urine + faeces + skinEvap + respiratory + sweat
  let totalGain := metabolicGain
  let dailyGoal := jsRound (totalLoss - totalGain)
  max 1500 (min 5000 dailyGoal)

/-- Reference definition written from the words of the spec (section 4.1):
BMR by Mifflin-St Jeor, TDEE = BMR times the activity multiplier, BSA by
Du Bois, total loss = 1500 + 150 + 400*BSA + 0.13*TDEE + sweat where sweat
is 0.10*TDEE when the multiplier exceeds 1.2 and a fixed 100 otherwise,
gain = 0.13*TDEE, goal = round(loss - gain) clamped to [1500, 5000]. -/
def computeDailyGoalSpec (powf : ℚ → ℚ → ℚ) (stats : UserStats) : ℤ :=
  let bmr := 10 * stats.weight + 6.25 * stats.height - 5 * stats.age +
    (if stats.sex = Sex.male then 5 else -161)
  let tdee := bmr * activityMultipliers stats.activityLevel
  let bsa := 0.007184 * powf stats.weight 0.425 * powf stats.height 0.725
  let loss := 1500 + 150 + 400 * bsa + 0.13 * tdee +
    (if activityMultipliers stats.activityLevel > 1.2 then 0.10 * tdee else 100)
  let gain := 0.13 * tdee
  max 1500 (min 5000 (jsRound (loss - gain)))

/-- Pet evolution stages, from `PetState.type` in
`app/services/firebase/database.ts`. -/
inductive PetType where
  | seed
  | sprout
  | plant
  | flower
  | droplet
  | fish
deriving DecidableEq

/-- Position of a stage in the order seed < sprout < plant < flower <
droplet < fish. -/
def PetType.idx : PetType → ℕ
  | .seed => 0
  | .sprout => 1
  | .plant => 2
  | .flower => 3
  | .droplet => 4
  | .fish => 5

/-- `EXPERIENCE_PER_100ML` from `petEvolution.ts`. -/
def EXPERIENCE_PER_100ML : ℚ := 10

/-- `calculatePetType` from `app/utils/petEvolution.ts`: thresholds
seed 0, sprout 100, plant 300, flower 600, droplet 1000, fish 1500,
tested from the top with inclusive `>=` comparisons. -/
def calculatePetType (experience : ℚ) : PetType :=
  if experience ≥ 1500 then .fish
  else if experience ≥ 1000 then .droplet
  else if experience ≥ 600 then .flower
  else if experience ≥ 300 then .plant
  else if experience ≥ 100 then .sprout
  else .seed

/-- `calculatePetLevel` from `app/utils/petEvolution.ts`. -/
def calculatePetLevel (experience : ℚ) : ℤ :=
  min 100 (jsRound (experience / 2000 * 100))

/-- `addHydrationExperience` from `app/utils/petEvolution.ts`. -/
def addHydrationExperience (currentExperience : ℚ) (waterAmountMl : ℚ) : ℚ :=
  let experienceGain := ⌊waterAmountMl / 100 * EXPERIENCE_PER_100ML⌋
  currentExperience + experienceGain

/-- The pet state fields touched by `updatePetAfterHydration` (timestamps
are handled by the service layer and omitted). -/
structure PetState where
  level : ℤ
  health : ℤ
  experience : ℚ
  name : String
  type : PetType
deriving DecidableEq

/-- `updatePetAfterHydration` from `app/utils/petEvolution.ts`. -/
def updatePetAfterHydration (currentPet : PetState) (waterAmountMl : ℚ) : PetState :=
  let newExperience := addHydrationExperience currentPet.experience waterAmountMl
  let newType := calculatePetType newExperience
  let newLevel := calculatePetLevel newExperience
  { currentPet with
    experience := newExperience
    type := newType
    level := newLevel
    health := 100 }

/-- Concrete biometrics used to witness `calculateDailyWaterGoal_correct`. -/
def statsExample : UserStats :=
  { height := 170, weight := 70, age := 25, sex := .male, activityLevel := .moderate }

/-- Water level labels from `waterLevelClassifier.ts`. -/
inductive WaterLevel where
  | empty
  | low
  | half
  | full
  | overflowing
deriving DecidableEq

/-- `BottleType` record from `waterLevelClassifier.ts`. -/
structure BottleType where
  name : String
  volume : ℚ
  brand : Option String := none
deriving DecidableEq

/-- `BottleDetection`, the result shape of `detectBottleAndLevel`. -/
structure BottleDetection where
  bottleType : BottleType
  waterLevel : WaterLevel
  estimatedVolume : ℚ
  confidence : ℚ
deriving DecidableEq

/-- `TribunalEstimate` from `waterLevelClassifier.ts` (volumes are rounded
to integers by `callOpenRouterAPI`). -/
structure TribunalEstimate where
  bottleVolume : ℤ
  waterVolume : ℤ
  confidence : ℚ
deriving DecidableEq

/-- `TribunalResult`, the wrapper returned by `getTribunalEstimate`. -/
structure TribunalResult where
  estimate : TribunalEstimate
deriving DecidableEq

/-- `calculateVolumeFromLevel` from `waterLevelClassifier.ts`. -/
def calculateVolumeFromLevel (waterLevel : WaterLevel) (bottleVolume : ℚ) : ℚ :=
  match waterLevel with
  | .empty => 0
  | .low => jsRound (bottleVolume * 0.25)
  | .half => jsRound (bottleVolume * 0.5)
  | .full => bottleVolume
  | .overflowing => jsRound (bottleVolume * 1.2)

/-- `detectWaterLevelSimulated` from `waterLevelClassifier.ts`.  The
`Math.random` pick of a level in initial mode is modelled by the
parameter `randomLevel`. -/
def detectWaterLevelSimulated (isVerification : Bool) (randomLevel : WaterLevel) :
    WaterLevel × ℚ :=
  if isVerification then (.empty, 0.8) else (randomLevel, 0.6)

/-- Outcome of the on-device model path inside `detectBottleAndLevel`:
the module-level `model` may be null (`unavailable`), the prediction may
throw (`failed`), or it may produce a top class and its probability. -/
inductive ModelOutcome where
  | unavailable
  | failed
  | predicted (waterLevel : WaterLevel) (confidence : ℚ)
deriving DecidableEq

/-- JS try/catch on an `Except` value: the catch handler replaces the
error with a fallback value. -/
def jsTryCatch {α : Type} (body : Except String α) (handler : String → α) : Except String α :=
  match body with
  | .ok v => .ok v
  | .error e => .ok (handler e)

/-- The try body of `detectBottleAndLevel`: use the ML model when it is
loaded and its prediction succeeds, otherwise fall back to simulated
detection.  `internalError` models an exception escaping the try body
itself (the defensive outer catch of the source). -/
def detectBottleAndLevelBody (isVerification : Bool) (modelOutcome : ModelOutcome)
    (randomLevel : WaterLevel) (internalError : Bool) : Except String BottleDetection :=
  if internalError then .error "Error in detectBottleAndLevel"
  else
    match modelOutcome with
    | .predicted waterLevel confidence =>
        let bottleType : BottleType := { name := "Unknown Bottle", volume := 500 }
        .ok { bottleType := bottleType
              waterLevel := waterLevel
              estimatedVolume := calculateVolumeFromLevel waterLevel bottleType.volume
              confidence := confidence }
    | _ =>
        let (waterLevel, confidence) := detectWaterLevelSimulated isVerification randomLevel
        let bottleType : BottleType :=
          { name := "SmartWater 1L", volume := 1000, brand := some "SmartWater" }
        .ok { bottleType := bottleType
              waterLevel := waterLevel
              estimatedVolume := calculateVolumeFromLevel waterLevel bottleType.volume
              confidence := confidence }

/-- `detectBottleAndLevel` from `waterLevelClassifier.ts`, with its outer
catch that returns a very low confidence (0.3) final fallback. -/
def detectBottleAndLevelE (isVerification : Bool) (modelOutcome : ModelOutcome)
    (randomLevel : WaterLevel) (internalError : Bool) : Except String BottleDetection :=
  jsTryCatch (detectBottleAndLevelBody isVerification modelOutcome randomLevel internalError)
    (fun _ =>
      { bottleType := { name := "Unknown Bottle", volume := 500 }
        waterLevel := if isVerification then .empty else .full
        estimatedVolume := if isVerification then 0 else 500
        confidence := 0.3 })

/-- The detection value `detectBottleAndLevel` returns (it never
throws; `detectBottleAndLevelE` below is proved to equal `.ok` of this). -/
def detectBottleAndLevel (isVerification : Bool) (modelOutcome : ModelOutcome)
    (randomLevel : WaterLevel) (internalError : Bool) : BottleDetection :=
  ((detectBottleAndLevelE isVerification modelOutcome randomLevel internalError).toOption).getD
    { bottleType := { name := "Unknown Bottle", volume := 500 }
      waterLevel := if isVerification then .empty else .full
      estimatedVolume := if isVerification then 0 else 500
      confidence := 0.3 }

/-- The three numeric fields the remote model is asked for; `none` models
a missing or non-numeric field in the parsed JSON. -/
structure RawTribunal where
  bottleVolume : Option ℚ
  waterVolume : Option ℚ
  confidence : Option ℚ

/-- Environment of one `callOpenRouterAPI` invocation: the configured API
key, whether the HTTP response was 2xx, the text content extracted from
the chat-completion envelope, and the result of JSON-parsing that content
(`none` models a parse error). -/
structure RemoteEnv where
  apiKey : Option String
  httpOk : Bool
  httpStatusText : String
  content : Option String
  parsed : Option RawTribunal

/-- `callOpenRouterAPI` from `waterLevelClassifier.ts`: the missing-key
error is thrown before the try block; every error inside the try block is
rethrown with the tag "OpenRouter API call failed: ".  On success volumes
are rounded and confidence is clamped to [0, 1]. -/
def callOpenRouterAPI (env : RemoteEnv) : Except String TribunalEstimate :=
  match env.apiKey with
  | none => .error "OpenRouter API key not configured"
  | some _ =>
    let inner : Except String TribunalEstimate :=
      if env.httpOk = false then .error ("OpenRouter API error: " ++ env.httpStatusText)
      else
        match env.content with
        | none => .error "No content in OpenRouter API response"
        | some _ =>
          match env.parsed with
          | none => .error "JSON parse error"
          | some raw =>
            match raw.bottleVolume, raw.waterVolume, raw.confidence with
            | some bv, some wv, some conf =>
                .ok { bottleVolume := jsRound bv
                      waterVolume := jsRound wv
                      confidence := max 0 (min 1 conf) }
            | _, _, _ => .error "Invalid response format from OpenRouter API"
    match inner with
    | .ok v => .ok v
    | .error e => .error ("OpenRouter API call failed: " ++ e)

/-- `getTribunalEstimate` from `waterLevelClassifier.ts`: converts the
image to base64 (which may itself fail) and calls the OpenRouter API;
every failure is rethrown tagged "Tribunal estimate failed: ". -/
def getTribunalEstimate (base64Result : Except String String) (env : RemoteEnv) :
    Except String TribunalResult :=
  let body : Except String TribunalResult :=
    match base64Result with
    | .error e => .error e
    | .ok _ =>
      match callOpenRouterAPI env with
      | .error e => .error e
      | .ok estimate => .ok { estimate := estimate }
  match body with
  | .ok r => .ok r
  | .error e => .error ("Tribunal estimate failed: " ++ e)

/-- The component state `processImage` leaves behind: estimated volume,
confidence, bottle type label, water level, and whether the
low-confidence alert fired. -/
structure Selection where
  estimatedVolume : ℚ
  detectionConfidence : ℚ
  bottleType : Option String
  waterLevel : WaterLevel
  lowConfWarning : Bool
deriving DecidableEq

/-- The bottle type label `processImage` writes when the tribunal
estimate wins and reports a positive bottle volume. -/
def tribunalBottleLabel (bottleVolume : ℤ) : String :=
  "Bottle (" ++ toString bottleVolume ++ "ml)"

/-- `processImage` from the scan screen (part_008): run the local
detection, then the tribunal; use the tribunal volumes when it succeeded
with confidence > 0.5, otherwise the local detection; the water level
always comes from the local detection; finally surface a low-confidence
alert when `tribunalEstimate?.estimate.confidence || detection.confidence`
is below 0.5.  `bottleType0` is the bottle type state before the call
(only overwritten in some branches). -/
def processImage (bottleType0 : Option String) (detection : BottleDetection)
    (tribunal : Except String TribunalResult) : Selection :=
  let finalConfidence : ℚ :=
    match tribunal with
    | .ok t => if t.estimate.confidence = 0 then detection.confidence else t.estimate.confidence
    | .error _ => detection.confidence
  let lowConfWarning := decide (finalConfidence < 0.5)
  match tribunal with
  | .ok t =>
    if t.estimate.confidence > 0.5 then
      { estimatedVolume := (t.estimate.waterVolume : ℚ)
        detectionConfidence := t.estimate.confidence
        bottleType := if t.estimate.bottleVolume > 0
          then some (tribunalBottleLabel t.estimate.bottleVolume) else bottleType0
        waterLevel := detection.waterLevel
        lowConfWarning := lowConfWarning }
    else
      { estimatedVolume := detection.estimatedVolume
        detectionConfidence := detection.confidence
        bottleType := some detection.bottleType.name
        waterLevel := detection.waterLevel
        lowConfWarning := lowConfWarning }
  | .error _ =>
      { estimatedVolume := detection.estimatedVolume
        detectionConfidence := detection.confidence
        bottleType := some detection.bottleType.name
        waterLevel := detection.waterLevel
        lowConfWarning := lowConfWarning }

/-- A bare estimate as the fusion policy of the spec sees it. -/
structure FusionEstimate where
  waterVolume : ℚ
  confidence : ℚ
deriving DecidableEq

/-- The local classifier result offered to fusion: present exactly when
the model was loaded and its prediction succeeded. -/
def localFusionInput (modelOutcome : ModelOutcome) : Option FusionEstimate :=
  match modelOutcome with
  | .predicted waterLevel confidence =>
      some { waterVolume := calculateVolumeFromLevel waterLevel 500, confidence := confidence }
  | _ => none

/-- The remote result offered to fusion: present exactly when the
tribunal call succeeded. -/
def remoteFusionInput (tribunal : Except String TribunalResult) : Option FusionEstimate :=
  match tribunal with
  | .ok t => some { waterVolume := (t.estimate.waterVolume : ℚ), confidence := t.estimate.confidence }
  | .error _ => none

/-- The simulated estimator result offered to fusion. -/
def simulatedFusionInput (isVerification : Bool) (randomLevel : WaterLevel) : FusionEstimate :=
  let (waterLevel, confidence) := detectWaterLevelSimulated isVerification randomLevel
  { waterVolume := calculateVolumeFromLevel waterLevel 1000, confidence := confidence }

/-- The fusion policy as the spec words it (section 4.3): prefer the
remote result whenever its confidence is strictly above 0.5, otherwise
the local result, and the simulated result when the local one is absent. -/
def fuseSpec (localResult : Option FusionEstimate) (remoteResult : Option FusionEstimate)
    (simulatedResult : FusionEstimate) : FusionEstimate :=
  match remoteResult with
  | some r => if r.confidence > 0.5 then r else localResult.getD simulatedResult
  | none => localResult.getD simulatedResult

/-- The confidence the low-confidence alert of `processImage` is keyed
on: the remote confidence whenever the remote estimator returned a
nonzero confidence (the JS expression uses `||`), and the local
detection confidence otherwise. -/
def warningConfidence (detectionConfidence : ℚ) (remoteResult : Option FusionEstimate) : ℚ :=
  match remoteResult with
  | some r => if r.confidence = 0 then detectionConfidence else r.confidence
  | none => detectionConfidence

/-- A hydration entry document as written by `addHydrationEntry`
(timestamps and image URIs omitted). -/
structure HydrationEntryDoc where
  userId : String
  amount : ℚ
  bottleType : Option String
  verified : Bool
deriving DecidableEq

/-- The slice of the user profile the scan screens read. -/
structure ProfileStats where
  dailyWaterGoal : ℚ
deriving DecidableEq

/-- The persistent store as one scan session sees it: the hydration
entries appended so far, the pet document, the intake already logged
today, and the user profile. -/
structure Store where
  entries : List HydrationEntryDoc
  pet : Option PetState
  todayIntake : ℚ
  profile : Option ProfileStats
deriving DecidableEq

/-- Result of one `completeHydrationEntry` call: success (with the
overdrink-alert flag and the logged amount) or one of its error exits. -/
inductive CompleteResult where
  | ok (overdrinkFlag : Bool) (loggedAmount : ℚ)
  | errNotAuthenticated
  | errNoProfile
  | errNoVolume
deriving DecidableEq

/-- Whether a `CompleteResult` is an error exit. -/
def CompleteResult.isError : CompleteResult → Bool
  | .ok _ _ => false
  | _ => true

namespace ScanScreenB

/-- Screen state of the newer `ScanBottleScreen` (part_008):
`routeEstimatedVolume` is `route.params?.estimatedVolume` (the prior
estimate carried from the initial phase) and `estimatedVolume` is the
current component state. -/
structure ScreenState where
  isVerification : Bool
  routeEstimatedVolume : Option ℚ
  estimatedVolume : Option ℚ
  bottleType : Option String
deriving DecidableEq

/-- The `volumeToLog` nullish-coalescing chain of part_008:
`overrideVolume ?? (isVerification ? route : state) ?? route ?? 0`. -/
def volumeToLog (overrideVolume : Option ℚ) (st : ScreenState) : ℚ :=
  match overrideVolume with
  | some v => v
  | none =>
    match (if st.isVerification then st.routeEstimatedVolume else st.estimatedVolume) with
    | some v => v
    | none =>
      match st.routeEstimatedVolume with
      | some v => v
      | none => 0

/-- `completeHydrationEntry` of part_008: authenticate, load the
profile, compute `volumeToLog`, reject a zero volume, then append the
entry (always `verified := true`) and update the pet if present. -/
def completeHydrationEntry (currentUser : Option String) (store : Store)
    (st : ScreenState) (overrideVolume : Option ℚ) : Store × CompleteResult :=
  match currentUser with
  | none => (store, .errNotAuthenticated)
  | some uid =>
    match store.profile with
    | none => (store, .errNoProfile)
    | some profile =>
      let v := volumeToLog overrideVolume st
      if v = 0 then (store, .errNoVolume)
      else
        let overdrinkFlag := decide (store.todayIntake + v > profile.dailyWaterGoal * 1.5)
        let entry : HydrationEntryDoc :=
          { userId := uid, amount := v, bottleType := st.bottleType, verified := true }
        let store1 := { store with entries := store.entries ++ [entry] }
        let store2 :=
          match store1.pet with
          | some pet => { store1 with pet := some (updatePetAfterHydration pet v) }
          | none => store1
        (store2, .ok overdrinkFlag v)

/-- Result of one `handleConfirm` call in part_008. -/
inductive ConfirmResult where
  | errNoVolume
  | navigateToVerification (estimatedVolume : ℚ)
  | completed (r : CompleteResult)
deriving DecidableEq

/-- `handleConfirm` of part_008: in initial mode a missing or zero
estimated volume is rejected; in verification mode the entry is
completed with no override; otherwise navigate to the verification
phase carrying the current estimate. -/
def handleConfirm (currentUser : Option String) (store : Store) (st : ScreenState) :
    Store × ConfirmResult :=
  if st.isVerification = false ∧ (st.estimatedVolume = none ∨ st.estimatedVolume = some 0) then
    (store, .errNoVolume)
  else if st.isVerification then
    let r := completeHydrationEntry currentUser store st none
    (r.1, .completed r.2)
  else
    (store, .navigateToVerification (st.estimatedVolume.getD 0))

end ScanScreenB

namespace ScanScreenA

/-- Screen state of the older named `ScanBottleScreen.tsx`. -/
structure ScreenState where
  isVerification : Bool
  estimatedVolume : Option ℚ
  bottleType : Option String
deriving DecidableEq

/-- `completeHydrationEntry` of `ScanBottleScreen.tsx`: logs
`estimatedVolume || 0` and always writes `verified := true`. -/
def completeHydrationEntry (currentUser : Option String) (store : Store)
    (st : ScreenState) : Store × CompleteResult :=
  match currentUser with
  | none => (store, .errNotAuthenticated)
  | some uid =>
    match store.profile with
    | none => (store, .errNoProfile)
    | some profile =>
      let v := st.estimatedVolume.getD 0
      let overdrinkFlag := decide (store.todayIntake + v > profile.dailyWaterGoal * 1.5)
      let entry : HydrationEntryDoc :=
        { userId := uid, amount := v, bottleType := st.bottleType, verified := true }
      let store1 := { store with entries := store.entries ++ [entry] }
      let store2 :=
        match store1.pet with
        | some pet => { store1 with pet := some (updatePetAfterHydration pet v) }
        | none => store1
      (store2, .ok overdrinkFlag v)

/-- Result of one `handleSkipVerification` call. -/
inductive SkipResult where
  | cancelled
  | noVolume
  | completed (r : CompleteResult)
deriving DecidableEq

/-- `handleSkipVerification` of `ScanBottleScreen.tsx`: after the
confirmation dialog, finalize only when the estimated volume is truthy
(non-null and nonzero). -/
def handleSkipVerification (userConfirmsSkip : Bool) (currentUser : Option String)
    (store : Store) (st : ScreenState) : Store × SkipResult :=
  if userConfirmsSkip = false then (store, .cancelled)
  else if st.estimatedVolume.getD 0 = 0 then (store, .noVolume)
  else
    let r := completeHydrationEntry currentUser store st
    (r.1, .completed r.2)

end ScanScreenA

/-- A store with one user profile, no pet and no prior entries, used in
concrete instances. -/
def storeExample : Store :=
  { entries := [], pet := none, todayIntake := 0, profile := some { dailyWaterGoal := 2500 } }

/-- Per-user inputs of one leaderboard ranking pass: the aggregated
total of today, the stored daily goal (absent or zero falls back to
2500 through JS `||`), and the display fields. -/
structure LeaderboardUser where
  userId : String
  displayName : String
  totalHydration : ℚ
  dailyWaterGoalRaw : Option ℚ
  petHealth : ℤ
deriving DecidableEq

/-- `LeaderboardItem` as built by `subscribeToLeaderboard`. -/
structure LeaderboardItem where
  userId : String
  displayName : String
  totalHydration : ℚ
  percentageOfGoal : ℤ
  petHealth : ℤ
  rank : ℕ
deriving DecidableEq

/-- The effective daily goal: `userData.stats?.dailyWaterGoal || 2500`. -/
def effectiveDailyGoal (raw : Option ℚ) : ℚ :=
  match raw with
  | some g => if g = 0 then 2500 else g
  | none => 2500

/-- One leaderboard item before sorting: percentage of goal is
`round(total / goal * 100)` guarded by `goal > 0`, rank still 0. -/
def leaderboardItemOf (u : LeaderboardUser) : LeaderboardItem :=
  let dailyGoal := effectiveDailyGoal u.dailyWaterGoalRaw
  { userId := u.userId
    displayName := u.displayName
    totalHydration := u.totalHydration
    percentageOfGoal := if dailyGoal > 0 then jsRound (u.totalHydration / dailyGoal * 100) else 0
    petHealth := u.petHealth
    rank := 0 }

/-- Stable descending insertion: an element is placed before the first
element whose total does not exceed it, so earlier input stays first
among ties.  This models the guaranteed-stable JS `Array.prototype.sort`
with comparator `(a, b) => b.totalHydration - a.totalHydration`. -/
def insertByHydration (x : LeaderboardItem) : List LeaderboardItem → List LeaderboardItem
  | [] => [x]
  | y :: ys =>
    if x.totalHydration ≥ y.totalHydration then x :: y :: ys
    else y :: insertByHydration x ys

/-- Stable sort by descending total hydration. -/
def sortByHydration : List LeaderboardItem → List LeaderboardItem
  | [] => []
  | x :: xs => insertByHydration x (sortByHydration xs)

/-- `leaderboardItems.forEach((item, index) => item.rank = index + 1)`. -/
def assignRanksFrom (startRank : ℕ) : List LeaderboardItem → List LeaderboardItem
  | [] => []
  | x :: xs => { x with rank := startRank } :: assignRanksFrom (startRank + 1) xs

/-- The pure core of `subscribeToLeaderboard` from the leaderboard
screen: build items, sort by total hydration descending (stable), then
assign 1-based ranks in order. -/
def subscribeToLeaderboard (users : List LeaderboardUser) : List LeaderboardItem :=
  assignRanksFrom 1 (sortByHydration (users.map leaderboardItemOf))

/-- The identity of an item up to rank assignment: user and total. -/
def leaderboardKey (e : LeaderboardItem) : String × ℚ :=
  (e.userId, e.totalHydration)

/-- Evaluation helper for `jsRound` at concrete arguments. -/
theorem jsRound_eq_of (x : ℚ) (n : ℤ) (h1 : (n : ℚ) ≤ x + 1 / 2) (h2 : x + 1 / 2 < n + 1) :
    jsRound x = n := by
  unfold jsRound
  exact Int.floor_eq_iff.mpr ⟨h1, h2⟩

/-- Claim C6: on every biometrics input inside the caller-guaranteed
ranges, `calculateDailyWaterGoal` agrees with the reference formula of
the spec (Mifflin-St Jeor BMR, activity multiplier, Du Bois BSA, the
loss/gain bookkeeping, round then clamp), and its value always lies in
[1500, 5000].  In the embedding the function is a pure function of its
arguments, so determinism holds by construction. -/
theorem calculateDailyWaterGoal_correct (powf : ℚ → ℚ → ℚ) (stats : UserStats)
    (hh1 : 50 ≤ stats.height) (hh2 : stats.height ≤ 250)
    (hw1 : 20 ≤ stats.weight) (hw2 : stats.weight ≤ 300)
    (ha1 : 1 ≤ stats.age) (ha2 : stats.age ≤ 120) :
    calculateDailyWaterGoal powf stats = computeDailyGoalSpec powf stats ∧
    1500 ≤ calculateDailyWaterGoal powf stats ∧
    calculateDailyWaterGoal powf stats ≤ 5000 := by
  refine ⟨?_, ?_, ?_⟩
  · unfold calculateDailyWaterGoal computeDailyGoalSpec
    cases hs : stats.sex <;>
      simp only [hs] <;>
      split_ifs <;>
      first
        | contradiction
        | (congr 2; unfold jsRound; congr 1; ring)
  · exact le_max_left _ _
  · unfold calculateDailyWaterGoal
    exact max_le (by norm_num) (min_le_left _ _)

/-- Witness for claim C6 at concrete biometrics. -/
theorem calculateDailyWaterGoal_correct_witness :
    calculateDailyWaterGoal (fun _ _ => 1) statsExample =
      computeDailyGoalSpec (fun _ _ => 1) statsExample ∧
    1500 ≤ calculateDailyWaterGoal (fun _ _ => 1) statsExample ∧
    calculateDailyWaterGoal (fun _ _ => 1) statsExample ≤ 5000 :=
  calculateDailyWaterGoal_correct (fun _ _ => 1) statsExample
    (by norm_num [statsExample]) (by norm_num [statsExample])
    (by norm_num [statsExample]) (by norm_num [statsExample])
    (by norm_num [statsExample]) (by norm_num [statsExample])

/-- Claim C7: for every pet state and every waterAmountMl at least 0,
`updatePetAfterHydration` adds exactly floor(waterAmountMl / 100 * 10)
experience (so experience never decreases), resets health to 100, and
sets level to min(100, round(newExperience / 2000 * 100)), which never
exceeds 100; experience 2000 gives level 100 and experience 4000 still
gives level 100. -/
theorem updatePetAfterHydration_spec (pet : PetState) (waterAmountMl : ℚ)
    (hw : 0 ≤ waterAmountMl) :
    (updatePetAfterHydration pet waterAmountMl).experience =
      pet.experience + ⌊waterAmountMl / 100 * 10⌋ ∧
    pet.experience ≤ (updatePetAfterHydration pet waterAmountMl).experience ∧
    (updatePetAfterHydration pet waterAmountMl).health = 100 ∧
    (updatePetAfterHydration pet waterAmountMl).level =
      min 100 (jsRound ((updatePetAfterHydration pet waterAmountMl).experience / 2000 * 100)) ∧
    (updatePetAfterHydration pet waterAmountMl).level ≤ 100 ∧
    calculatePetLevel 2000 = 100 ∧
    calculatePetLevel 4000 = 100 := by
  have hgain : (0 : ℤ) ≤ ⌊waterAmountMl / 100 * 10⌋ := by
    apply Int.floor_nonneg.mpr
    positivity
  refine ⟨?_, ?_, rfl, rfl, min_le_left _ _, ?_, ?_⟩
  · simp [updatePetAfterHydration, addHydrationExperience, EXPERIENCE_PER_100ML]
  · unfold updatePetAfterHydration addHydrationExperience EXPERIENCE_PER_100ML
    simp only
    have : (0 : ℚ) ≤ (⌊waterAmountMl / 100 * 10⌋ : ℚ) := by exact_mod_cast hgain
    linarith
  · unfold calculatePetLevel
    rw [jsRound_eq_of (2000 / 2000 * 100) 100 (by norm_num) (by norm_num)]
    norm_num
  · unfold calculatePetLevel
    rw [jsRound_eq_of (4000 / 2000 * 100) 200 (by norm_num) (by norm_num)]
    norm_num

/-- Witness for claim C7 at a concrete pet and amount. -/
theorem updatePetAfterHydration_spec_witness :
    (updatePetAfterHydration ⟨0, 50, 300, "Aqua", .plant⟩ 500).experience =
      (300 : ℚ) + ⌊(500 : ℚ) / 100 * 10⌋ ∧
    (300 : ℚ) ≤ (updatePetAfterHydration ⟨0, 50, 300, "Aqua", .plant⟩ 500).experience ∧
    (updatePetAfterHydration ⟨0, 50, 300, "Aqua", .plant⟩ 500).health = 100 ∧
    (updatePetAfterHydration ⟨0, 50, 300, "Aqua", .plant⟩ 500).level =
      min 100 (jsRound
        ((updatePetAfterHydration ⟨0, 50, 300, "Aqua", .plant⟩ 500).experience / 2000 * 100)) ∧
    (updatePetAfterHydration ⟨0, 50, 300, "Aqua", .plant⟩ 500).level ≤ 100 ∧
    calculatePetLevel 2000 = 100 ∧
    calculatePetLevel 4000 = 100 :=
  updatePetAfterHydration_spec ⟨0, 50, 300, "Aqua", .plant⟩ 500 (by norm_num)

/-- Claim C8: `calculatePetType` is monotone non-decreasing in experience
with respect to the stage order seed < sprout < plant < flower < droplet
< fish, and the thresholds are inclusive: exactly 100 XP yields sprout
and exactly 1500 XP yields fish. -/
theorem calculatePetType_monotone (e1 e2 : ℚ) (h0 : 0 ≤ e1) (h12 : e1 ≤ e2) :
    (calculatePetType e1).idx ≤ (calculatePetType e2).idx ∧
    calculatePetType 100 = PetType.sprout ∧
    calculatePetType 1500 = PetType.fish := by
  refine ⟨?_, ?_, ?_⟩
  · unfold calculatePetType
    split_ifs <;> simp_all [PetType.idx] <;> linarith
  · unfold calculatePetType
    norm_num
  · unfold calculatePetType
    norm_num

/-- Witness for claim C8 at concrete experience values. -/
theorem calculatePetType_monotone_witness :
    (calculatePetType 250).idx ≤ (calculatePetType 1200).idx ∧
    calculatePetType 100 = PetType.sprout ∧
    calculatePetType 1500 = PetType.fish :=
  calculatePetType_monotone 250 1200 (by norm_num) (by norm_num)

/-- Claim C1: for every capture in either mode, the selection of
`processImage` equals the fusion policy of the spec: the remote
(tribunal) volumes and confidence whenever the remote call succeeded
with confidence strictly above 0.5, otherwise the local classifier
result, and the simulated estimator result when the local model was
unavailable or its prediction failed. -/
theorem processImage_fusion (bottleType0 : Option String) (isVerification : Bool)
    (modelOutcome : ModelOutcome) (randomLevel : WaterLevel)
    (tribunal : Except String TribunalResult) :
    (processImage bottleType0
        (detectBottleAndLevel isVerification modelOutcome randomLevel false)
        tribunal).estimatedVolume =
      (fuseSpec (localFusionInput modelOutcome) (remoteFusionInput tribunal)
        (simulatedFusionInput isVerification randomLevel)).waterVolume ∧
    (processImage bottleType0
        (detectBottleAndLevel isVerification modelOutcome randomLevel false)
        tribunal).detectionConfidence =
      (fuseSpec (localFusionInput modelOutcome) (remoteFusionInput tribunal)
        (simulatedFusionInput isVerification randomLevel)).confidence := by
  cases tribunal <;> cases modelOutcome <;> cases isVerification <;>
    simp [processImage, fuseSpec, localFusionInput, remoteFusionInput, simulatedFusionInput,
      detectBottleAndLevel, detectBottleAndLevelE, detectBottleAndLevelBody, jsTryCatch,
      detectWaterLevelSimulated, Except.toOption] <;>
    split_ifs <;>
    simp_all

/-- Claim C5 counterexample: a capture where the remote estimator
succeeds with confidence 0.4 (rejected, so the local estimate with
confidence 0.9 is selected) still fires the low-confidence warning,
although the selected estimate has confidence 0.9, not below 0.5. -/
theorem lowConfWarning_counterexample :
    (processImage none (detectBottleAndLevel false (.predicted .full 0.9) .full false)
        (.ok { estimate := { bottleVolume := 1000, waterVolume := 400, confidence := 0.4 } })
      ).lowConfWarning = true ∧
    (processImage none (detectBottleAndLevel false (.predicted .full 0.9) .full false)
        (.ok { estimate := { bottleVolume := 1000, waterVolume := 400, confidence := 0.4 } })
      ).detectionConfidence = 0.9 ∧
    ¬ ((processImage none (detectBottleAndLevel false (.predicted .full 0.9) .full false)
        (.ok { estimate := { bottleVolume := 1000, waterVolume := 400, confidence := 0.4 } })
      ).detectionConfidence < 0.5) := by
  refine ⟨?_, ?_, ?_⟩ <;>
    norm_num [processImage, detectBottleAndLevel, detectBottleAndLevelE,
      detectBottleAndLevelBody, jsTryCatch, Except.toOption]

/-- Claim C5 as amended: the low-confidence warning fires exactly when
the warning confidence is below 0.5, where the warning confidence is the
remote confidence whenever the remote estimator succeeded with a nonzero
confidence (even when fusion rejected it), and the local detection
confidence otherwise; in particular, in the spec scenario of a local
estimate with confidence 0.85 and no remote result, no warning fires. -/
theorem lowConfWarning_amended (bottleType0 : Option String) (isVerification : Bool)
    (modelOutcome : ModelOutcome) (randomLevel : WaterLevel)
    (tribunal : Except String TribunalResult) :
    (processImage bottleType0
        (detectBottleAndLevel isVerification modelOutcome randomLevel false)
        tribunal).lowConfWarning =
      decide (warningConfidence
        (detectBottleAndLevel isVerification modelOutcome randomLevel false).confidence
        (remoteFusionInput tribunal) < 0.5) ∧
    (processImage none (detectBottleAndLevel false (.predicted .full 0.85) .full false)
        (.error "network failure")).lowConfWarning = false := by
  constructor
  · cases tribunal <;>
      simp [processImage, warningConfidence, remoteFusionInput] <;>
      split_ifs <;>
      simp_all
  · norm_num [processImage, detectBottleAndLevel, detectBottleAndLevelE,
      detectBottleAndLevelBody, jsTryCatch, Except.toOption]

/-- Claim C9: the local estimation path never throws: the try/catch
layering of `detectBottleAndLevel` always yields a detection, with the
final 0.3-confidence fallback on an internal error; every failure of the
remote path surfaces as a tagged failure value of `getTribunalEstimate`
(never an uncaught exception); and with a failed remote the selection of
`processImage` still equals the local detection, so fusion always
produces an estimate. -/
theorem estimation_never_throws (isVerification : Bool) (modelOutcome : ModelOutcome)
    (randomLevel : WaterLevel) (internalError : Bool)
    (base64Result : Except String String) (env : RemoteEnv)
    (bottleType0 : Option String) (errMsg : String) :
    detectBottleAndLevelE isVerification modelOutcome randomLevel internalError =
      .ok (detectBottleAndLevel isVerification modelOutcome randomLevel internalError) ∧
    (detectBottleAndLevel isVerification modelOutcome randomLevel true).confidence = 0.3 ∧
    ((getTribunalEstimate base64Result env).isOk = true ∨
      ∃ msg, getTribunalEstimate base64Result env =
        .error ("Tribunal estimate failed: " ++ msg)) ∧
    (processImage bottleType0
        (detectBottleAndLevel isVerification modelOutcome randomLevel internalError)
        (.error errMsg)).estimatedVolume =
      (detectBottleAndLevel isVerification modelOutcome randomLevel internalError).estimatedVolume ∧
    (processImage bottleType0
        (detectBottleAndLevel isVerification modelOutcome randomLevel internalError)
        (.error errMsg)).detectionConfidence =
      (detectBottleAndLevel isVerification modelOutcome randomLevel internalError).confidence := by
  refine ⟨?_, ?_, ?_, ?_, ?_⟩
  · cases internalError <;> cases modelOutcome <;>
      simp [detectBottleAndLevel, detectBottleAndLevelE, detectBottleAndLevelBody,
        jsTryCatch, Except.toOption, detectWaterLevelSimulated]
  · simp [detectBottleAndLevel, detectBottleAndLevelE, detectBottleAndLevelBody,
      jsTryCatch, Except.toOption]
  · rcases hb : base64Result with e | b
    · exact Or.inr ⟨e, by simp [getTribunalEstimate]⟩
    · rcases hc : callOpenRouterAPI env with e | est
      · exact Or.inr ⟨e, by simp [getTribunalEstimate, hc]⟩
      · exact Or.inl (by simp [getTribunalEstimate, hc, Except.isOk, Except.toBool])
  · simp [processImage]
  · simp [processImage]

/-- Claim C2: in the verification phase, for every session holding a
(positive) prior estimate from the initial phase, confirming always
proceeds regardless of the verification-phase estimate, and the
hydration entry written carries the prior estimate, never the
verification-phase one. -/
theorem handleConfirm_verification_logs_prior (uid : String) (store : Store)
    (st : ScanScreenB.ScreenState) (v : ℚ) (profile : ProfileStats)
    (hver : st.isVerification = true)
    (hprior : st.routeEstimatedVolume = some v) (hv : 0 < v)
    (hprof : store.profile = some profile) :
    (ScanScreenB.handleConfirm (some uid) store st).2 =
      .completed (.ok (decide (store.todayIntake + v > profile.dailyWaterGoal * 1.5)) v) ∧
    (ScanScreenB.handleConfirm (some uid) store st).1.entries =
      store.entries ++
        [{ userId := uid, amount := v, bottleType := st.bottleType, verified := true }] := by
  have hne : v ≠ 0 := ne_of_gt hv
  cases hp : store.pet <;>
    constructor <;>
    simp [ScanScreenB.handleConfirm, ScanScreenB.completeHydrationEntry,
      ScanScreenB.volumeToLog, hver, hprior, hprof, hne, hp]

/-- Witness for claim C2: a concrete verification-phase session whose
verification capture reports 120 ml still logs the prior 500 ml. -/
theorem handleConfirm_verification_logs_prior_witness :
    (ScanScreenB.handleConfirm (some "user-1") storeExample
        { isVerification := true, routeEstimatedVolume := some 500,
          estimatedVolume := some 120, bottleType := some "SmartWater 1L" }).2 =
      .completed (.ok (decide ((0 : ℚ) + 500 > (2500 : ℚ) * 1.5)) 500) ∧
    (ScanScreenB.handleConfirm (some "user-1") storeExample
        { isVerification := true, routeEstimatedVolume := some 500,
          estimatedVolume := some 120, bottleType := some "SmartWater 1L" }).1.entries =
      storeExample.entries ++
        [{ userId := "user-1", amount := 500, bottleType := some "SmartWater 1L",
           verified := true }] :=
  handleConfirm_verification_logs_prior "user-1" storeExample
    { isVerification := true, routeEstimatedVolume := some 500,
      estimatedVolume := some 120, bottleType := some "SmartWater 1L" }
    500 { dailyWaterGoal := 2500 } rfl rfl (by norm_num) rfl

/-- Claim C3: finalizing a verification-phase session whose prior
estimate is missing or zero fails with an error, writes no hydration
entry and performs no pet update: the store after the failed call equals
the store before it. -/
theorem completeHydrationEntry_missing_prior_fails (currentUser : Option String)
    (store : Store) (st : ScanScreenB.ScreenState)
    (hver : st.isVerification = true)
    (hprior : st.routeEstimatedVolume = none ∨ st.routeEstimatedVolume = some 0) :
    (ScanScreenB.completeHydrationEntry currentUser store st none).1 = store ∧
    (ScanScreenB.completeHydrationEntry currentUser store st none).2.isError = true := by
  have hvol : ScanScreenB.volumeToLog none st = 0 := by
    rcases hprior with h | h <;>
      simp [ScanScreenB.volumeToLog, hver, h]
  cases hu : currentUser <;>
    cases hprof : store.profile <;>
    constructor <;>
    simp [ScanScreenB.completeHydrationEntry, hvol, CompleteResult.isError, hprof]

/-- Witness for claim C3: a concrete verification-phase session with no
prior estimate leaves the store untouched and reports an error. -/
theorem completeHydrationEntry_missing_prior_fails_witness :
    (ScanScreenB.completeHydrationEntry (some "user-1") storeExample
        { isVerification := true, routeEstimatedVolume := none,
          estimatedVolume := some 350, bottleType := none } none).1 = storeExample ∧
    (ScanScreenB.completeHydrationEntry (some "user-1") storeExample
        { isVerification := true, routeEstimatedVolume := none,
          estimatedVolume := some 350, bottleType := none } none).2.isError = true :=
  completeHydrationEntry_missing_prior_fails (some "user-1") storeExample
    { isVerification := true, routeEstimatedVolume := none,
      estimatedVolume := some 350, bottleType := none }
    rfl (Or.inl rfl)

/-- Claim C4 counterexample: a concrete skipped verification with
estimated volume 500 creates a hydration entry with verified = true, not
verified = false; and with no estimated volume the skip does not
finalize at all (no entry is written). -/
theorem handleSkipVerification_counterexample :
    ((ScanScreenA.handleSkipVerification true (some "user-1") storeExample
        { isVerification := true, estimatedVolume := some 500,
          bottleType := some "SmartWater 1L" }).1.entries.map
      (fun e => e.verified)) = [true] ∧
    (ScanScreenA.handleSkipVerification true (some "user-1") storeExample
        { isVerification := true, estimatedVolume := none, bottleType := none }).2 =
      .noVolume ∧
    (ScanScreenA.handleSkipVerification true (some "user-1") storeExample
        { isVerification := true, estimatedVolume := none, bottleType := none }).1.entries =
      [] := by
  refine ⟨?_, ?_, ?_⟩ <;>
    norm_num [ScanScreenA.handleSkipVerification, ScanScreenA.completeHydrationEntry,
      storeExample]

/-- Claim C4 as amended: the user-initiated skip finalizes only when a
nonzero estimated volume is present, and the hydration entry it creates
has verified = true (the source marks every entry verified). -/
theorem handleSkipVerification_amended (uid : String) (store : Store)
    (st : ScanScreenA.ScreenState) (v : ℚ) (profile : ProfileStats)
    (hvol : st.estimatedVolume = some v) (hvne : v ≠ 0)
    (hprof : store.profile = some profile) :
    (ScanScreenA.handleSkipVerification true (some uid) store st).1.entries =
      store.entries ++
        [{ userId := uid, amount := v, bottleType := st.bottleType, verified := true }] ∧
    (ScanScreenA.handleSkipVerification true (some uid) store st).2 =
      .completed (.ok (decide (store.todayIntake + v > profile.dailyWaterGoal * 1.5)) v) := by
  cases hp : store.pet <;>
    constructor <;>
    simp [ScanScreenA.handleSkipVerification, ScanScreenA.completeHydrationEntry,
      hvol, hvne, hprof, hp]

/-- Witness for the amended claim C4 at a concrete session. -/
theorem handleSkipVerification_amended_witness :
    (ScanScreenA.handleSkipVerification true (some "user-2") storeExample
        { isVerification := true, estimatedVolume := some 750,
          bottleType := some "SmartWater 1L" }).1.entries =
      storeExample.entries ++
        [{ userId := "user-2", amount := 750, bottleType := some "SmartWater 1L",
           verified := true }] ∧
    (ScanScreenA.handleSkipVerification true (some "user-2") storeExample
        { isVerification := true, estimatedVolume := some 750,
          bottleType := some "SmartWater 1L" }).2 =
      .completed (.ok (decide ((0 : ℚ) + 750 > (2500 : ℚ) * 1.5)) 750) :=
  handleSkipVerification_amended "user-2" storeExample
    { isVerification := true, estimatedVolume := some 750,
      bottleType := some "SmartWater 1L" }
    750 { dailyWaterGoal := 2500 } rfl (by norm_num) rfl

/-- Membership in a stable descending insert. -/
theorem mem_insertByHydration {a x : LeaderboardItem} {l : List LeaderboardItem} :
    a ∈ insertByHydration x l ↔ a = x ∨ a ∈ l := by
  induction l with
  | nil => simp [insertByHydration]
  | cons y ys ih =>
    by_cases h : x.totalHydration ≥ y.totalHydration <;>
      simp [insertByHydration, h, ih] <;> tauto

/-- Insertion preserves the descending-total pairwise invariant. -/
theorem pairwise_insertByHydration (x : LeaderboardItem) (l : List LeaderboardItem)
    (h : l.Pairwise (fun a b => b.totalHydration ≤ a.totalHydration)) :
    (insertByHydration x l).Pairwise (fun a b => b.totalHydration ≤ a.totalHydration) := by
  induction l with
  | nil => simp [insertByHydration]
  | cons y ys ih =>
    rcases List.pairwise_cons.mp h with ⟨hy, hys⟩
    by_cases hxy : x.totalHydration ≥ y.totalHydration
    · rw [insertByHydration, if_pos hxy]
      refine List.pairwise_cons.mpr ⟨?_, h⟩
      intro z hz
      rcases List.mem_cons.mp hz with hz | hz
      · exact hz ▸ hxy
      · exact le_trans (hy z hz) hxy
    · rw [insertByHydration, if_neg hxy]
      refine List.pairwise_cons.mpr ⟨?_, ih hys⟩
      intro z hz
      rcases mem_insertByHydration.mp hz with hz | hz
      · subst hz
        exact le_of_lt (not_le.mp hxy)
      · exact hy z hz

/-- The sorted list is pairwise descending in total hydration. -/
theorem pairwise_sortByHydration (l : List LeaderboardItem) :
    (sortByHydration l).Pairwise (fun a b => b.totalHydration ≤ a.totalHydration) := by
  induction l with
  | nil => simp [sortByHydration]
  | cons x xs ih => exact pairwise_insertByHydration x _ ih

/-- Insertion adds one element to the length. -/
theorem length_insertByHydration (x : LeaderboardItem) (l : List LeaderboardItem) :
    (insertByHydration x l).length = l.length + 1 := by
  induction l with
  | nil => rfl
  | cons y ys ih =>
    by_cases h : x.totalHydration ≥ y.totalHydration <;>
      simp [insertByHydration, h, ih]

/-- Sorting preserves the length. -/
theorem length_sortByHydration (l : List LeaderboardItem) :
    (sortByHydration l).length = l.length := by
  induction l with
  | nil => rfl
  | cons x xs ih => simp [sortByHydration, length_insertByHydration, ih]

/-- The ranks assigned from `startRank` are consecutive. -/
theorem rank_assignRanksFrom (startRank : ℕ) (l : List LeaderboardItem) :
    (assignRanksFrom startRank l).map (fun e => e.rank) = List.range' startRank l.length := by
  induction l generalizing startRank with
  | nil => rfl
  | cons x xs ih => simp [assignRanksFrom, ih, List.range'_succ]

/-- Rank assignment does not change the totals. -/
theorem total_assignRanksFrom (startRank : ℕ) (l : List LeaderboardItem) :
    (assignRanksFrom startRank l).map (fun e => e.totalHydration) =
      l.map (fun e => e.totalHydration) := by
  induction l generalizing startRank with
  | nil => rfl
  | cons x xs ih => simp [assignRanksFrom, ih]

/-- Rank assignment preserves the descending-total pairwise invariant. -/
theorem pairwise_assignRanksFrom (startRank : ℕ) (l : List LeaderboardItem)
    (h : l.Pairwise (fun a b => b.totalHydration ≤ a.totalHydration)) :
    (assignRanksFrom startRank l).Pairwise
      (fun a b => b.totalHydration ≤ a.totalHydration) := by
  have h1 : ((assignRanksFrom startRank l).map (fun e => e.totalHydration)).Pairwise
      (fun a b => b ≤ a) := by
    rw [total_assignRanksFrom]
    exact List.pairwise_map.mpr h
  exact List.pairwise_map.mp h1

/-- Stability of insertion: among elements of one total, the inserted
element stays in front of the previously present ones. -/
theorem filter_insertByHydration (x : LeaderboardItem) (l : List LeaderboardItem) (t : ℚ) :
    (insertByHydration x l).filter (fun e => decide (e.totalHydration = t)) =
      (x :: l).filter (fun e => decide (e.totalHydration = t)) := by
  induction l with
  | nil => rfl
  | cons y ys ih =>
    by_cases hxy : x.totalHydration ≥ y.totalHydration
    · rw [insertByHydration, if_pos hxy]
    · rw [insertByHydration, if_neg hxy]
      by_cases hx : x.totalHydration = t
      · have hy : ¬ (y.totalHydration = t) := fun hy =>
          hxy (le_of_eq (hy.trans hx.symm))
        simp [List.filter_cons, hx, hy, ih]
      · by_cases hy : y.totalHydration = t <;>
          simp [List.filter_cons, hx, hy, ih]

/-- Stability of the sort: elements of one total keep their input order. -/
theorem filter_sortByHydration (l : List LeaderboardItem) (t : ℚ) :
    (sortByHydration l).filter (fun e => decide (e.totalHydration = t)) =
      l.filter (fun e => decide (e.totalHydration = t)) := by
  induction l with
  | nil => rfl
  | cons x xs ih =>
    rw [show sortByHydration (x :: xs) = insertByHydration x (sortByHydration xs) from rfl,
      filter_insertByHydration]
    by_cases hx : x.totalHydration = t <;> simp [List.filter_cons, hx, ih]

/-- Rank assignment keeps the user/total keys of any total-filtered
slice. -/
theorem key_filter_assignRanksFrom (startRank : ℕ) (l : List LeaderboardItem) (t : ℚ) :
    ((assignRanksFrom startRank l).filter (fun e => decide (e.totalHydration = t))).map
        leaderboardKey =
      (l.filter (fun e => decide (e.totalHydration = t))).map leaderboardKey := by
  induction l generalizing startRank with
  | nil => rfl
  | cons x xs ih =>
    by_cases hx : x.totalHydration = t <;>
      simp [assignRanksFrom, List.filter_cons, hx, ih, leaderboardKey]

/-- Claim C10: a leaderboard ranking pass returns the entries sorted
descending by total hydration, with 1-based ranks assigned in sorted
order; ties keep input order (for every total, the user/total keys of
that slice equal the input slice); each percentage of goal is
round(total / goal * 100) with no cap at 100 (a 3750 ml total against a
2500 ml goal yields 150); and the pass is a pure function, so running it
twice on identical input yields identical rank assignments. -/
theorem subscribeToLeaderboard_ranking (users : List LeaderboardUser) :
    (subscribeToLeaderboard users).Pairwise
      (fun a b => b.totalHydration ≤ a.totalHydration) ∧
    (subscribeToLeaderboard users).map (fun e => e.rank) = List.range' 1 users.length ∧
    (∀ t : ℚ,
      ((subscribeToLeaderboard users).filter (fun e => decide (e.totalHydration = t))).map
          leaderboardKey =
        ((users.map leaderboardItemOf).filter
          (fun e => decide (e.totalHydration = t))).map leaderboardKey) ∧
    (∀ u : LeaderboardUser,
      (leaderboardItemOf u).percentageOfGoal =
        (if effectiveDailyGoal u.dailyWaterGoalRaw > 0
         then jsRound (u.totalHydration / effectiveDailyGoal u.dailyWaterGoalRaw * 100)
         else 0)) ∧
    (leaderboardItemOf
        { userId := "u", displayName := "U", totalHydration := 3750,
          dailyWaterGoalRaw := some 2500, petHealth := 0 }).percentageOfGoal = 150 ∧
    subscribeToLeaderboard users = subscribeToLeaderboard users := by
  refine ⟨?_, ?_, ?_, ?_, ?_, rfl⟩
  · exact pairwise_assignRanksFrom 1 _ (pairwise_sortByHydration _)
  · rw [subscribeToLeaderboard, rank_assignRanksFrom, length_sortByHydration,
      List.length_map]
  · intro t
    rw [subscribeToLeaderboard, key_filter_assignRanksFrom, filter_sortByHydration]
  · intro u
    rfl
  · have h150 : jsRound (150 : ℚ) = 150 :=
      jsRound_eq_of _ 150 (by norm_num) (by norm_num)
    simp only [leaderboardItemOf, effectiveDailyGoal]
    norm_num [h150]
